import Mathlib

/-!
Verification of the subprocess execution core of `prefect-shell`.

Shallow embedding of `src/prefect_shell/commands.py` and
`src/prefect_shell/utils.py`.  Pure data of a run (the chunks the child
wrote to stdout/stderr and its exit status) is a `ProcessObs`; the Python
functions become Lean functions from their arguments and the observation
to an `Except` value mirroring raise/return.  Python string helpers
(`str.rstrip`, `str.split`) are reimplemented over `List Char` so the
line-collection loops can be reasoned about.  The scheduling structure of
the two output-draining code paths (the `async for` loops of
`shell_run_command` and the `asyncio.gather` of
`ShellProcess.wait_for_completion`) is embedded as a small bounded-pipe
machine at the end of the definition section.
-/

namespace PrefectShell

/-- `sys.platform` as consulted by the source (`== "win32"` checks). -/
inductive Platform where
  | posix
  | win32
deriving DecidableEq, Repr

/-- `os.linesep`: `"\n"` on POSIX, `"\r\n"` on Windows. -/
def Platform.linesep : Platform → String
  | .posix => "\n"
  | .win32 => "\r\n"

/-! ### Python string helpers -/

/-- Whitespace characters stripped by Python `str.rstrip()`. -/
def isPySpace (c : Char) : Bool :=
  c = ' ' || c = '\t' || c = '\n' || c = '\r' || c = '\x0b' || c = '\x0c'

/-- `str.rstrip()` on the character list of a string. -/
def rstripL (cs : List Char) : List Char :=
  (cs.reverse.dropWhile isPySpace).reverse

/-- Python `str.rstrip()`. -/
def pyRstrip (s : String) : String :=
  ⟨rstripL s.data⟩

/-- Python `str.lower()`, per character (all strings compared after
lowering in the source are ASCII shell names). -/
def pyLower (s : String) : String :=
  ⟨s.data.map Char.toLower⟩

/-- Python `str.split(sep)` for a one-character separator, scanning left
to right. -/
def splitOnChar (sep : Char) : List Char → List (List Char)
  | [] => [[]]
  | c :: cc =>
    if c = sep then [] :: splitOnChar sep cc
    else match splitOnChar sep cc with
      | [] => [[c]]
      | t :: ts => (c :: t) :: ts

/-- Python `str.split("\r\n")`, scanning left to right for non-overlapping
occurrences. -/
def splitCRLF : List Char → List (List Char)
  | [] => [[]]
  | '\r' :: '\n' :: cc => [] :: splitCRLF cc
  | c :: cc =>
    match splitCRLF cc with
    | [] => [[c]]
    | t :: ts => (c :: t) :: ts

/-- Python `str.split(sep)`.  The source only calls it with `"\n"` and
`os.linesep` (which is `"\n"` or `"\r\n"`); any other separator is unused
and mapped to `[s]`. -/
def pySplit (sep : String) (s : String) : List String :=
  match sep.data with
  | ['\r', '\n'] => (splitCRLF s.data).map (fun l => ⟨l⟩)
  | [c] => (splitOnChar c s.data).map (fun l => ⟨l⟩)
  | _ => [s]

/-! ### Environments (Python dicts of environment variables) -/

/-- An environment mapping, observed through `envGet` (first binding wins,
as in a Python dict rendered as an association list). -/
abbrev Env := List (String × String)

/-- Dict lookup. -/
def envGet (k : String) : Env → Option String
  | [] => none
  | (k0, v) :: rest => if k0 = k then some v else envGet k rest

/-- `base.copy(); base.update(overlay)`: the overlay's bindings shadow the
base's, every other base binding passes through. -/
def dictUpdate (base overlay : Env) : Env :=
  overlay ++ base

/-! ### Observed child-process behaviour

A spawned process is abstracted by what the collector can observe of it:
the successive non-empty text chunks `TextReceiveStream` yields for each
pipe, and the exit status `process.wait()` reports. -/

structure ProcessObs where
  stdoutChunks : List String
  stderrChunks : List String
  returncode : Int
deriving DecidableEq, Repr

/-- Python exceptions raised by the embedded code paths. -/
inductive RunError where
  /-- `raise RuntimeError(msg)` -/
  | runtimeError (msg : String)
  /-- `lines[-1]` on an empty list -/
  | indexError
  /-- attribute access on `None` (e.g. `TextReceiveStream(None).receive()`) -/
  | attributeError
  /-- `os.remove` on a missing path -/
  | fileNotFoundError
deriving DecidableEq, Repr

/-- The union return type of the two `shell_run_command` variants:
`lines if return_all else line`. -/
inductive PyValue where
  | list (lines : List String)
  | str (line : String)
deriving DecidableEq, Repr

/-- The file system as the set of existing file names. -/
abbrev FS := List String

/-- `os.path.exists`. -/
def osPathExists (fs : FS) (name : String) : Bool :=
  decide (name ∈ fs)

/-- `os.remove`: deletes the file, raising `FileNotFoundError` when it is
missing. -/
def osRemove (fs : FS) (name : String) : Except RunError FS :=
  if osPathExists fs name then .ok (fs.filter (fun m => decide (¬ m = name)))
  else .error .fileNotFoundError

/-! ### The line-collection loops

Both `shell_run_command` variants run
`lines.extend(text.rstrip().split("\n"))` per stdout chunk
(commands.py:100-102, utils.py:70-72);
`ShellProcess._capture_output` runs
`self._output.extend(output.rstrip().split(os.linesep))` per chunk
(commands.py:157-161). -/

/-- One chunk through `text.rstrip().split(sep)`. -/
def processChunk (sep : String) (text : String) : List String :=
  pySplit sep (pyRstrip text)

/-- The stdout loop of both `shell_run_command` variants (split on `"\n"`). -/
def collectLines (chunks : List String) : List String :=
  chunks.foldl (fun lines text => lines ++ processChunk "\n" text) []

/-- The loop body of `ShellProcess._capture_output` (split on `os.linesep`). -/
def captureLines (platform : Platform) (chunks : List String) : List String :=
  chunks.foldl (fun out text => out ++ processChunk platform.linesep text) []

namespace Commands

/-! Embedding of `prefect_shell/commands.py`'s task `shell_run_command`. -/

/-- The keyword arguments of the task (commands.py:24-33). -/
structure Args where
  command : String
  env : Option Env := none
  helper_command : Option String := none
  shell : Option String := none
  extension : Option String := none
  return_all : Bool := false
deriving DecidableEq, Repr

/-- commands.py:72-73: `current_env = os.environ.copy();
current_env.update(env or {})` — the mapping that is then passed as
`env=current_env` to `anyio.open_process` (line 98). -/
def spawnEnv (osEnviron : Env) (env : Option Env) : Env :=
  dictUpdate osEnviron (env.getD [])

/-- commands.py:75-79: platform default when the caller left `shell`
unset; an explicit value is kept as given. -/
def resolvedShell (platform : Platform) (shell : Option String) : String :=
  match shell with
  | some s => s
  | none => if platform = .win32 then "powershell" else "bash"

/-- commands.py:81: `extension = ".ps1" if shell.lower() == "powershell"
else extension`.  A `none` stays `none`: `NamedTemporaryFile` then gets no
suffix at all (no platform default here). -/
def resolvedExtension (shell : String) (extension : Option String) : Option String :=
  if pyLower shell = "powershell" then some ".ps1" else extension

/-- The PowerShell trailer written at commands.py:91 and
(trigger path) commands.py:310. -/
def exitTrailer : String := "\r\nExit $LastExitCode"

/-- commands.py:85-92: the full content of the temp script.  `tmp.close()`
(line 92) runs before `anyio.open_process` (line 97), so this is exactly
what is on disk when the child starts.  An empty `helper_command` is falsy
in `if helper_command:` and is skipped. -/
def scriptOnDisk (platform : Platform) (a : Args) : String :=
  (match a.helper_command with
   | some h => if h = "" then "" else h ++ platform.linesep
   | none => "") ++
  a.command ++
  (if pyLower (resolvedShell platform a.shell) = "powershell" then exitTrailer else "")

/-- commands.py:106-110: the diagnostic interpolated into the failure
message: the joined stderr chunks, or — `if not stderr and lines:` — the
last stdout line plus a newline. -/
def failureDetail (stderrChunks lines : List String) : String :=
  let stderr := String.intercalate "\n" stderrChunks
  if stderr = "" ∧ lines ≠ [] then (lines.getLast?).getD "" ++ "\n" else stderr

/-- commands.py:96-120: collect stdout lines; on `process.returncode`
truthy raise `RuntimeError` with the exit code and diagnostic; else return
all lines or `lines[-1] if lines else ""`. -/
def shell_run_command (a : Args) (p : ProcessObs) : Except RunError PyValue :=
  let lines := collectLines p.stdoutChunks
  if p.returncode ≠ 0 then
    .error (.runtimeError ("Command failed with exit code " ++ toString p.returncode
      ++ ":\n" ++ failureDetail p.stderrChunks lines))
  else if a.return_all then .ok (.list lines)
  else .ok (.str ((lines.getLast?).getD ""))

/-- commands.py:83,115-117: the temp file is created with `delete=False`
and removed in the `finally` block guarded by `os.path.exists`. -/
def cleanupTmp (fs : FS) (name : String) : Except RunError FS :=
  if osPathExists fs name then osRemove fs name else .ok fs

/-- The whole task run threaded through the file system: the script is
created (commands.py:83), the body runs to a result, and the `finally`
block (115-117) runs regardless of that result. -/
def runAndCleanup (a : Args) (p : ProcessObs) (fs : FS) (tmpName : String) :
    Except RunError PyValue × FS :=
  let fsCreated := fs ++ [tmpName]
  let result := shell_run_command a p
  let fsAfter := match cleanupTmp fsCreated tmpName with
    | .ok fs2 => fs2
    | .error _ => fsCreated
  (result, fsAfter)

end Commands

namespace Utils

/-! Embedding of `prefect_shell/utils.py`'s `shell_run_command`. -/

/-- The keyword arguments (utils.py:14-22). -/
structure Args where
  command : String
  env : Option Env := none
  helper_command : Option String := none
  shell : String := "bash"
  return_all : Bool := false
deriving DecidableEq, Repr

/-- utils.py:54-55: `current_env = os.environ.copy();
current_env.update(env or {})`.  This value is never used again in the
function body. -/
def current_env (osEnviron : Env) (env : Option Env) : Env :=
  dictUpdate osEnviron (env.getD [])

/-- utils.py:69: `open_process(shell_command, env=env)` — the `env`
keyword receives the raw caller argument, not `current_env`. -/
def spawnEnvArg (env : Option Env) : Option Env :=
  env

/-- Semantics of the `env` keyword of process creation: `None` inherits
the parent's environment, a mapping replaces it entirely. -/
def childEnv (osEnviron : Env) : Option Env → Env
  | none => osEnviron
  | some e => e

/-- utils.py:68-83: collect stdout lines; on truthy returncode raise
`RuntimeError` whose message carries only the exit code (stderr is logged,
line 79, not embedded); else `return lines if return_all else lines[-1]` —
an `IndexError` when `lines` is empty. -/
def shell_run_command (a : Args) (p : ProcessObs) : Except RunError PyValue :=
  let lines := collectLines p.stdoutChunks
  if p.returncode ≠ 0 then
    .error (.runtimeError ("Command failed with exit code " ++ toString p.returncode))
  else if a.return_all then .ok (.list lines)
  else
    match lines.getLast? with
    | some l => .ok (.str l)
    | none => .error .indexError

end Utils

/-! ### `ShellOperation` and `ShellProcess` (commands.py:123-359) -/

/-- The block's fields (commands.py:222-252). -/
structure ShellOperation where
  commands : List String
  stream_output : Bool := true
  env : Env := []
  working_dir : Option String := none
  shell : Option String := none
  extension : Option String := none
deriving DecidableEq, Repr

namespace ShellOperation

/-- commands.py:285: `self.extension or (".ps1" if sys.platform == "win32"
else ".sh")` — Python `or`, so an empty-string extension is falsy. -/
def resolvedExtension (platform : Platform) (op : ShellOperation) : String :=
  match op.extension with
  | some e => if e = "" then (if platform = .win32 then ".ps1" else ".sh") else e
  | none => if platform = .win32 then ".ps1" else ".sh"

/-- commands.py:301-306:
`if self.shell is None and sys.platform == "win32" or extension == ".ps1":
powershell elif self.shell is None: bash else: self.shell.lower()`
(Python precedence: `(A and B) or C`). -/
def resolvedShell (platform : Platform) (op : ShellOperation) : String :=
  if (op.shell = none ∧ platform = .win32) ∨ resolvedExtension platform op = ".ps1" then
    "powershell"
  else
    match op.shell with
    | none => "bash"
    | some s => pyLower s

/-- commands.py:293: `os.linesep.join(self.commands)`. -/
def joinedCommands (platform : Platform) (op : ShellOperation) : String :=
  String.intercalate platform.linesep op.commands

/-- What has reached storage when `open_process` runs (commands.py:317):
the joined commands were written and flushed (298-299); the PowerShell
trailer written at 310 is only in the buffered writer, no flush follows
before the spawn. -/
def flushedAtSpawn (platform : Platform) (op : ShellOperation) : String :=
  joinedCommands platform op

/-- Everything written to the temp file by `trigger`, including the
trailer of commands.py:308-310 that sits in the buffer at spawn time. -/
def bufferedScript (platform : Platform) (op : ShellOperation) : String :=
  joinedCommands platform op ++
  (if resolvedShell platform op = "powershell" then Commands.exitTrailer else "")

/-- commands.py:314-315: `input_env = os.environ.copy();
input_env.update(self.env)` — passed as `env=input_env` (line 322). -/
def input_env (osEnviron : Env) (op : ShellOperation) : Env :=
  dictUpdate osEnviron op.env

/-- The `stdout=`/`stderr=` arguments of `open_process`
(commands.py:320-321). -/
inductive Stdio where
  | pipe
  | devnull
deriving DecidableEq, Repr

/-- commands.py:320: `subprocess.PIPE if self.stream_output else
subprocess.DEVNULL`. -/
def stdoutSpec (op : ShellOperation) : Stdio :=
  if op.stream_output then .pipe else .devnull

/-- commands.py:321: same choice for stderr. -/
def stderrSpec (op : ShellOperation) : Stdio :=
  if op.stream_output then .pipe else .devnull

end ShellOperation

/-- The run handle (commands.py:123-131).  `stdout`/`stderr` are the text
chunks of the piped streams, or `none` when the pipe was `DEVNULL` (the
`anyio` process then exposes `None` for that stream). -/
structure ShellProcess where
  stdout : Option (List String)
  stderr : Option (List String)
  returncode : Int
  output : List String
deriving DecidableEq, Repr

/-- commands.py:153-161, `ShellProcess._capture_output(source)`:
iterating `TextReceiveStream(source)`.  When the stream was `DEVNULL`,
`source` is `None` and the first `receive()` raises `AttributeError`. -/
def capture_output (platform : Platform) (source : Option (List String)) :
    Except RunError (List String) :=
  match source with
  | none => .error .attributeError
  | some chunks => .ok (captureLines platform chunks)

namespace ShellProcess

/-- commands.py:163-178, `wait_for_completion`: gather the two
`_capture_output` coroutines, then `await self._process.wait()`.  The
`asyncio.gather` interleaving of the shared `self._output` is modelled as
all stdout chunks' lines before all stderr chunks' lines; no claim below
depends on the interleaving order.  The return code is only logged
(finally block, 175-178) — it is never inspected and nothing is raised. -/
def wait_for_completion (platform : Platform) (sp : ShellProcess) :
    Except RunError ShellProcess := do
  let out ← capture_output platform sp.stdout
  let errOut ← capture_output platform sp.stderr
  pure { sp with output := sp.output ++ out ++ errOut }

/-- commands.py:180-188: `return self._output`. -/
def fetch_result (sp : ShellProcess) : List String :=
  sp.output

end ShellProcess

namespace ShellOperation

/-- commands.py:258-331, `trigger`: spawn the process — piped streams only
when `stream_output` is set — and wrap it in a `ShellProcess` with an
empty output buffer. -/
def trigger (op : ShellOperation) (p : ProcessObs) : ShellProcess :=
  { stdout := if op.stream_output then some p.stdoutChunks else none
    stderr := if op.stream_output then some p.stderrChunks else none
    returncode := p.returncode
    output := [] }

/-- commands.py:333-359, `run`: `trigger`, `wait_for_completion`,
`fetch_result`. -/
def run (platform : Platform) (op : ShellOperation) (p : ProcessObs) :
    Except RunError (List String) := do
  let sp := op.trigger p
  let sp2 ← sp.wait_for_completion platform
  pure sp2.fetch_result

/-- The operation's `_exit_stack` view of the file system: the existing
files and the temp-file contexts entered by `trigger`
(commands.py:286-291). -/
structure OpState where
  fs : FS
  registered : List String
deriving DecidableEq, Repr

/-- `trigger` creates the `NamedTemporaryFile` (default `delete=True`) and
enters it into `self._exit_stack` (commands.py:286-291). -/
def triggerFs (st : OpState) (name : String) : OpState :=
  { fs := st.fs ++ [name], registered := st.registered ++ [name] }

/-- commands.py:361-367, `close`: `self._exit_stack.aclose()` exits every
entered `NamedTemporaryFile` context, unlinking its file. -/
def closeFs (st : OpState) : OpState :=
  { fs := st.fs.filter (fun m => decide (¬ m ∈ st.registered)), registered := [] }

end ShellOperation

/-! ### The drain schedulers over bounded pipes

The two code paths read the child's pipes in different orders:

* `shell_run_command` (commands.py:100-108) iterates
  `TextReceiveStream(process.stdout)` to end of stream, then awaits
  `process.wait()`, and only then reads `process.stderr`;
* `ShellProcess.wait_for_completion` (commands.py:170-173) runs the two
  `_capture_output` readers under `asyncio.gather`, so at every suspension
  point either reader may progress.

To compare them against the deadlock claim, each is embedded as a read
policy of a small machine: a child program is a list of pending writes
`(stream, bytes)` followed by exit; each OS pipe buffers at most `cap`
bytes; a blocked party contributes no step.  `succs` lists every state
reachable in one step. -/

/-- The two child streams. -/
inductive Sid where
  | out
  | err
deriving DecidableEq, Repr

/-- A machine state: the child's remaining writes, whether it exited
(closing both pipes), the bytes buffered in each pipe, and whether each
reader has observed end-of-stream. -/
structure DrainState where
  prog : List (Sid × Nat)
  exited : Bool
  outBuf : Nat
  errBuf : Nat
  outEof : Bool
  errEof : Bool
deriving DecidableEq, Repr

def DrainState.buf (st : DrainState) : Sid → Nat
  | .out => st.outBuf
  | .err => st.errBuf

def DrainState.eofAt (st : DrainState) : Sid → Bool
  | .out => st.outEof
  | .err => st.errEof

def DrainState.setBufZero (st : DrainState) : Sid → DrainState
  | .out => { st with outBuf := 0 }
  | .err => { st with errBuf := 0 }

def DrainState.addBuf (st : DrainState) (sid : Sid) (k : Nat) : DrainState :=
  match sid with
  | .out => { st with outBuf := st.outBuf + k }
  | .err => { st with errBuf := st.errBuf + k }

def DrainState.setEof (st : DrainState) : Sid → DrainState
  | .out => { st with outEof := true }
  | .err => { st with errEof := true }

/-- A fresh state: the child has its whole program ahead, pipes are empty. -/
def initState (prog : List (Sid × Nat)) : DrainState :=
  { prog := prog, exited := false, outBuf := 0, errBuf := 0,
    outEof := false, errEof := false }

/-- Child steps: write as many pending bytes as the target pipe has room
for, or exit once all writes are done.  A full target pipe blocks the
child: no step. -/
def childSuccs (cap : Nat) (st : DrainState) : List DrainState :=
  match st.prog with
  | [] => if st.exited then [] else [{ st with exited := true }]
  | (sid, n) :: rest =>
    let space := cap - st.buf sid
    if space = 0 then []
    else
      let k := min n space
      let st1 := st.addBuf sid k
      if n - k = 0 then [{ st1 with prog := rest }]
      else [{ st1 with prog := (sid, n - k) :: rest }]

/-- The read policies of the two source code paths. -/
inductive Strategy where
  /-- `shell_run_command`: drain stdout to end of stream, then (after the
  process exits) read stderr. -/
  | stdoutThenStderr
  /-- `wait_for_completion`: both readers scheduled by `asyncio.gather`. -/
  | gatherBoth
deriving DecidableEq, Repr

/-- Which stream a policy is prepared to read in a given state. -/
def canRead : Strategy → DrainState → Sid → Bool
  | .gatherBoth, st, sid => !(st.eofAt sid)
  | .stdoutThenStderr, st, .out => !st.outEof
  | .stdoutThenStderr, st, .err => st.outEof && st.exited

/-- Reader steps on one stream: consume the buffered bytes if any;
observe end of stream once the pipe is empty and closed; otherwise the
read blocks. -/
def readSucc (st : DrainState) (sid : Sid) : List DrainState :=
  if st.eofAt sid then []
  else if st.buf sid ≠ 0 then [st.setBufZero sid]
  else if st.exited then [st.setEof sid]
  else []

def readerSuccs (strat : Strategy) (st : DrainState) : List DrainState :=
  (if canRead strat st .out then readSucc st .out else []) ++
  (if canRead strat st .err then readSucc st .err else [])

/-- All states reachable in one step. -/
def succs (cap : Nat) (strat : Strategy) (st : DrainState) : List DrainState :=
  childSuccs cap st ++ readerSuccs strat st

/-- The drain is complete once both readers observed end of stream. -/
def finalState (st : DrainState) : Bool :=
  st.outEof && st.errEof

/-- Structural invariant of every run: end of stream is only observed on
an empty pipe of an exited child, and an exited child has no writes
left. -/
def wfDrain (st : DrainState) : Prop :=
  (st.outEof = true → st.exited = true ∧ st.outBuf = 0) ∧
  (st.errEof = true → st.exited = true ∧ st.errBuf = 0) ∧
  (st.exited = true → st.prog = [])

/-! ### Helper lemmas -/

theorem strData_append (a b : String) : (a ++ b).data = a.data ++ b.data := by
  cases a
  cases b
  rfl

theorem strMk_data (s : String) : String.mk s.data = s := by
  cases s
  rfl

theorem strAppend_empty (s : String) : s ++ "" = s := by
  cases s with
  | mk d =>
    show String.mk (d ++ []) = String.mk d
    rw [List.append_nil]

theorem rstripL_concat_newline (l : List Char) :
    rstripL (l ++ ['\n']) = rstripL l := by
  simp [rstripL, List.dropWhile_cons, isPySpace]

theorem splitOnChar_no_sep (sep : Char) (l : List Char) (h : sep ∉ l) :
    splitOnChar sep l = [l] := by
  induction l with
  | nil => rfl
  | cons c cc ih =>
    have hc : ¬ c = sep := fun he => h (by rw [← he]; exact List.mem_cons_self c cc)
    have hcc : sep ∉ cc := fun hm => h (List.mem_cons_of_mem _ hm)
    simp only [splitOnChar, if_neg hc, ih hcc]

theorem processChunk_newline (l : String) (h1 : rstripL l.data = l.data)
    (h2 : '\n' ∉ l.data) : processChunk "\n" (l ++ "\n") = [l] := by
  have hdata : (l ++ "\n").data = l.data ++ ['\n'] := by
    rw [strData_append]
  unfold processChunk pyRstrip
  rw [hdata, rstripL_concat_newline, h1]
  show pySplit "\n" (String.mk l.data) = [l]
  unfold pySplit
  show (splitOnChar '\n' l.data).map (fun x => String.mk x) = [l]
  rw [splitOnChar_no_sep '\n' l.data h2]
  simp [strMk_data]

theorem foldl_collect_eq (g : String → List String) :
    ∀ (chunks acc : List String),
      chunks.foldl (fun lines text => lines ++ g text) acc
        = acc ++ (chunks.map g).flatten := by
  intro chunks
  induction chunks with
  | nil =>
    intro acc
    simp
  | cons c cs ih =>
    intro acc
    simp only [List.foldl_cons, List.map_cons, List.flatten_cons]
    rw [ih, List.append_assoc]

theorem join_map_singleton (ls : List String) :
    (ls.map (fun l => [l])).flatten = ls := by
  induction ls with
  | nil => rfl
  | cons l t ih => simp [ih]

theorem collectLines_of_lines (ls : List String)
    (h : ∀ l ∈ ls, rstripL l.data = l.data ∧ '\n' ∉ l.data) :
    collectLines (ls.map (fun l => l ++ "\n")) = ls := by
  unfold collectLines
  rw [foldl_collect_eq]
  simp only [List.nil_append, List.map_map]
  have hmap : ls.map (fun l => processChunk "\n" (l ++ "\n")) = ls.map (fun l => [l]) := by
    apply List.map_congr_left
    intro l hl
    exact processChunk_newline l (h l hl).1 (h l hl).2
  calc (ls.map (processChunk "\n" ∘ fun l => l ++ "\n")).flatten
      = (ls.map (fun l => processChunk "\n" (l ++ "\n"))).flatten := rfl
    _ = (ls.map (fun l => [l])).flatten := by rw [hmap]
    _ = ls := join_map_singleton ls

theorem getLast?_eq_none_imp {α : Type} {ls : List α} (h : ls.getLast? = none) :
    ls = [] := by
  cases ls with
  | nil => rfl
  | cons a t => simp [List.getLast?] at h

theorem envGet_append (k : String) (xs ys : Env) :
    envGet k (xs ++ ys) = match envGet k xs with
      | some v => some v
      | none => envGet k ys := by
  induction xs with
  | nil => simp [envGet]
  | cons p rest ih =>
    obtain ⟨k0, v0⟩ := p
    by_cases h : k0 = k <;> simp [envGet, h, ih]

theorem wfDrain_child {cap : Nat} {st st' : DrainState} (hwf : wfDrain st)
    (h : st' ∈ childSuccs cap st) : wfDrain st' := by
  obtain ⟨h1, h2, h3⟩ := hwf
  unfold childSuccs at h
  cases hp : st.prog with
  | nil =>
    rw [hp] at h
    by_cases he : st.exited = true
    · simp [he] at h
    · simp only [Bool.not_eq_true] at he
      rw [he] at h
      simp only [Bool.false_eq_true, if_false, List.mem_singleton] at h
      subst h
      exact ⟨fun hh => ⟨rfl, (h1 hh).2⟩, fun hh => ⟨rfl, (h2 hh).2⟩, fun _ => rfl⟩
  | cons hd rest =>
    obtain ⟨sid, n⟩ := hd
    rw [hp] at h
    have hex : st.exited = false := by
      cases hx : st.exited
      · rfl
      · exact absurd (h3 hx) (by rw [hp]; simp)
    have ho : st.outEof = false := by
      cases hx : st.outEof
      · rfl
      · rw [(h1 hx).1] at hex; cases hex
    have herr : st.errEof = false := by
      cases hx : st.errEof
      · rfl
      · rw [(h2 hx).1] at hex; cases hex
    by_cases hsp : cap - st.buf sid = 0
    · simp [hsp] at h
    · simp only [if_neg hsp] at h
      by_cases hk : n - min n (cap - st.buf sid) = 0
      · rw [if_pos hk] at h
        simp only [List.mem_singleton] at h
        subst h
        cases sid <;> simp [wfDrain, DrainState.addBuf, ho, herr, hex]
      · rw [if_neg hk] at h
        simp only [List.mem_singleton] at h
        subst h
        cases sid <;> simp [wfDrain, DrainState.addBuf, ho, herr, hex]

theorem wfDrain_read {st st' : DrainState} {sid : Sid} (hwf : wfDrain st)
    (h : st' ∈ readSucc st sid) : wfDrain st' := by
  obtain ⟨h1, h2, h3⟩ := hwf
  unfold readSucc at h
  by_cases he : st.eofAt sid = true
  · simp [he] at h
  · rw [if_neg he] at h
    by_cases hb : st.buf sid ≠ 0
    · rw [if_pos hb] at h
      simp only [List.mem_singleton] at h
      subst h
      cases sid <;>
        exact ⟨fun hh => ⟨(h1 hh).1, by simp [DrainState.setBufZero, (h1 hh).2]⟩,
               fun hh => ⟨(h2 hh).1, by simp [DrainState.setBufZero, (h2 hh).2]⟩,
               fun hh => h3 hh⟩
    · rw [if_neg hb] at h
      by_cases hx : st.exited = true
      · rw [if_pos hx] at h
        simp only [List.mem_singleton] at h
        subst h
        push_neg at hb
        cases sid
        · exact ⟨fun _ => ⟨hx, hb⟩, fun hh => ⟨(h2 hh).1, (h2 hh).2⟩, fun hh => h3 hh⟩
        · exact ⟨fun hh => ⟨(h1 hh).1, (h1 hh).2⟩, fun _ => ⟨hx, hb⟩, fun hh => h3 hh⟩
      · simp [hx] at h

theorem wfDrain_succs {cap : Nat} {strat : Strategy} {st st' : DrainState}
    (hwf : wfDrain st) (h : st' ∈ succs cap strat st) : wfDrain st' := by
  unfold succs readerSuccs at h
  rcases List.mem_append.1 h with hc | hr
  · exact wfDrain_child hwf hc
  · rcases List.mem_append.1 hr with ho | he
    · by_cases hcr : canRead strat st .out = true
      · rw [if_pos hcr] at ho
        exact wfDrain_read hwf ho
      · simp [hcr] at ho
    · by_cases hcr : canRead strat st .err = true
      · rw [if_pos hcr] at he
        exact wfDrain_read hwf he
      · simp [hcr] at he

theorem wfDrain_init (prog : List (Sid × Nat)) : wfDrain (initState prog) := by
  refine ⟨?_, ?_, ?_⟩ <;> simp [initState]

theorem gather_progress {cap : Nat} {st : DrainState} (hcap : 0 < cap)
    (hwf : wfDrain st) (hfin : finalState st = false) :
    succs cap .gatherBoth st ≠ [] := by
  obtain ⟨h1, h2, h3⟩ := hwf
  intro hnil
  unfold succs at hnil
  rcases List.append_eq_nil.1 hnil with ⟨hch, hrd⟩
  unfold readerSuccs at hrd
  rcases List.append_eq_nil.1 hrd with ⟨hro, hre⟩
  unfold childSuccs at hch
  cases hp : st.prog with
  | nil =>
    rw [hp] at hch
    by_cases he : st.exited = true
    · cases ho : st.outEof with
      | false =>
        have hcr : canRead .gatherBoth st .out = true := by
          simp [canRead, DrainState.eofAt, ho]
        rw [if_pos hcr] at hro
        unfold readSucc at hro
        rw [if_neg (by simp [DrainState.eofAt, ho])] at hro
        by_cases hb : st.buf .out ≠ 0
        · rw [if_pos hb] at hro
          cases hro
        · rw [if_neg hb, if_pos he] at hro
          cases hro
      | true =>
        cases herr : st.errEof with
        | true =>
          unfold finalState at hfin
          rw [ho, herr] at hfin
          cases hfin
        | false =>
          have hcr : canRead .gatherBoth st .err = true := by
            simp [canRead, DrainState.eofAt, herr]
          rw [if_pos hcr] at hre
          unfold readSucc at hre
          rw [if_neg (by simp [DrainState.eofAt, herr])] at hre
          by_cases hb : st.buf .err ≠ 0
          · rw [if_pos hb] at hre
            cases hre
          · rw [if_neg hb, if_pos he] at hre
            cases hre
    · simp only [Bool.not_eq_true] at he
      rw [he] at hch
      simp at hch
  | cons hd rest =>
    obtain ⟨sid, n⟩ := hd
    rw [hp] at hch
    have hex : st.exited = false := by
      cases hx : st.exited
      · rfl
      · exact absurd (h3 hx) (by rw [hp]; simp)
    by_cases hsp : cap - st.buf sid = 0
    · have hbuf : st.buf sid ≠ 0 := by
        have hle : cap ≤ st.buf sid := Nat.sub_eq_zero_iff_le.1 hsp
        omega
      have heof : st.eofAt sid = false := by
        cases sid
        · show st.outEof = false
          cases hx : st.outEof
          · rfl
          · rw [(h1 hx).1] at hex; cases hex
        · show st.errEof = false
          cases hx : st.errEof
          · rfl
          · rw [(h2 hx).1] at hex; cases hex
      have hcr : canRead .gatherBoth st sid = true := by
        simp [canRead, heof]
      cases sid
      · rw [if_pos hcr] at hro
        unfold readSucc at hro
        rw [if_neg (by simp [heof]), if_pos hbuf] at hro
        cases hro
      · rw [if_pos hcr] at hre
        unfold readSucc at hre
        rw [if_neg (by simp [heof]), if_pos hbuf] at hre
        cases hre
    · by_cases hk : n - min n (cap - st.buf sid) = 0
      · simp only [if_neg hsp, if_pos hk] at hch
        cases hch
      · simp only [if_neg hsp, if_neg hk] at hch
        cases hch

/-! ### Claims -/

/-- A string ends with the given trailer. -/
def EndsWith (s trailer : String) : Prop :=
  trailer.data <:+ s.data

instance (s trailer : String) : Decidable (EndsWith s trailer) :=
  inferInstanceAs (Decidable (trailer.data <:+ s.data))

/-- Claim C1.  The task `shell_run_command` does raise a `RuntimeError`
carrying the exact exit code for every non-zero exit; but on the
`trigger`/`wait_for_completion`/`fetch_result` path the return code is
never inspected: `run` returns the captured lines normally, so the
failure is silently swallowed there (contradicting
`tests/test_commands.py::TestShellOperation::test_run_error`). -/
theorem c1_nonzero_exit_divergence :
    (∀ (a : Commands.Args) (p : ProcessObs), p.returncode ≠ 0 →
      Commands.shell_run_command a p = .error (.runtimeError
        ("Command failed with exit code " ++ toString p.returncode ++ ":\n"
          ++ Commands.failureDetail p.stderrChunks (collectLines p.stdoutChunks))))
    ∧ (∀ (platform : Platform) (op : ShellOperation) (p : ProcessObs),
        op.stream_output = true → p.returncode ≠ 0 →
        ShellOperation.run platform op p
          = .ok (captureLines platform p.stdoutChunks
                  ++ captureLines platform p.stderrChunks)) := by
  constructor
  · intro a p h
    unfold Commands.shell_run_command
    rw [if_pos h]
  · intro platform op p hso _hrc
    have htr : op.trigger p =
        { stdout := some p.stdoutChunks, stderr := some p.stderrChunks,
          returncode := p.returncode, output := [] } := by
      simp [ShellOperation.trigger, hso]
    unfold ShellOperation.run
    rw [htr]
    rfl

/-- Witness for C1 at the failing input of `test_run_error`:
`ls this/is/invalid` exits with code 2; the task raises, the operation
path returns the collected stderr lines as a normal result. -/
theorem c1_nonzero_exit_divergence_witness :
    ((2 : Int) ≠ 0
      ∧ ({ commands := ["ls this/is/invalid"] } : ShellOperation).stream_output = true)
    ∧ Commands.shell_run_command { command := "ls this/is/invalid" }
        { stdoutChunks := [], stderrChunks := ["ls: this/is/invalid: No such file or directory\n"],
          returncode := 2 }
        = .error (.runtimeError
            "Command failed with exit code 2:\nls: this/is/invalid: No such file or directory\n")
    ∧ ShellOperation.run .posix { commands := ["ls this/is/invalid"] }
        { stdoutChunks := [], stderrChunks := ["ls: this/is/invalid: No such file or directory\n"],
          returncode := 2 }
        = .ok ["ls: this/is/invalid: No such file or directory"] := by
  refine ⟨⟨by decide, by decide⟩, ?_, ?_⟩
  · rw [c1_nonzero_exit_divergence.1 { command := "ls this/is/invalid" }
      { stdoutChunks := [], stderrChunks := ["ls: this/is/invalid: No such file or directory\n"],
        returncode := 2 } (by decide)]
    rfl
  · rw [c1_nonzero_exit_divergence.2 .posix { commands := ["ls this/is/invalid"] }
      { stdoutChunks := [], stderrChunks := ["ls: this/is/invalid: No such file or directory\n"],
        returncode := 2 } (by decide) (by decide)]
    rfl

/-- Claim C2 counterexample.  Under the bounded-pipe semantics with
capacity 4, the read order of `shell_run_command` (stdout to end of
stream first, stderr only afterwards) deadlocks against a child that
writes 5 bytes to stderr before touching stdout: after the child fills
the stderr pipe, the reached state has no successor and is not final. -/
theorem c2_sequential_drain_deadlocks :
    ({ prog := [(Sid.err, 1), (Sid.out, 1)], exited := false, outBuf := 0, errBuf := 4,
         outEof := false, errEof := false } : DrainState)
        ∈ succs 4 .stdoutThenStderr (initState [(Sid.err, 5), (Sid.out, 1)])
      ∧ succs 4 .stdoutThenStderr
          { prog := [(Sid.err, 1), (Sid.out, 1)], exited := false, outBuf := 0, errBuf := 4,
            outEof := false, errEof := false } = []
      ∧ finalState
          { prog := [(Sid.err, 1), (Sid.out, 1)], exited := false, outBuf := 0, errBuf := 4,
            outEof := false, errEof := false } = false := by
  refine ⟨?_, ?_, ?_⟩ <;> decide

/-- Claim C2 (amended).  `ShellProcess.wait_for_completion` drains the two
streams with two concurrently scheduled readers (`asyncio.gather`), and
that policy never deadlocks: every non-final well-formed state of the
bounded-pipe machine has a successor, for any child program and any
positive pipe capacity.  (The well-formedness invariant holds initially
and is preserved by every step, of either policy.) -/
theorem c2_gather_never_deadlocks :
    (∀ prog, wfDrain (initState prog))
    ∧ (∀ (cap : Nat) (strat : Strategy) (st st' : DrainState),
        wfDrain st → st' ∈ succs cap strat st → wfDrain st')
    ∧ (∀ (cap : Nat) (st : DrainState), 0 < cap → wfDrain st →
        finalState st = false → succs cap .gatherBoth st ≠ []) := by
  refine ⟨wfDrain_init, ?_, ?_⟩
  · intro cap strat st st' hwf hmem
    exact wfDrain_succs hwf hmem
  · intro cap st hcap hwf hfin
    exact gather_progress hcap hwf hfin

/-- Witness for C2: the gather policy makes progress on the
stderr-flooding child from the counterexample, at capacity 4. -/
theorem c2_gather_never_deadlocks_witness :
    (0 < 4 ∧ finalState (initState [(Sid.err, 5), (Sid.out, 1)]) = false)
    ∧ succs 4 .gatherBoth (initState [(Sid.err, 5), (Sid.out, 1)]) ≠ [] :=
  ⟨⟨by decide, by decide⟩,
    c2_gather_never_deadlocks.2.2 4 (initState [(Sid.err, 5), (Sid.out, 1)]) (by decide)
      (c2_gather_never_deadlocks.1 [(Sid.err, 5), (Sid.out, 1)]) (by decide)⟩

/-- Claim C3 counterexample.  A successful run with no stdout output and
`return_all=False` makes the utils variant evaluate `lines[-1]` on an
empty list: an `IndexError`, not the empty string. -/
theorem c3_utils_empty_output_error :
    Utils.shell_run_command { command := "sleep 1" }
      { stdoutChunks := [], stderrChunks := [], returncode := 0 }
      = .error .indexError :=
  rfl

/-- Claim C3 (amended).  For a batch that exits 0 and whose stdout
arrives as one chunk per produced line (each line free of `"\n"` and
unchanged by `rstrip`), the task variant returns exactly those lines
with `return_all=True` and the last of them (or `""` when there are
none) with `return_all=False`; the utils variant agrees except that with
no lines and `return_all=False` it raises an `IndexError` instead of
returning `""`. -/
theorem c3_return_shapes :
    (∀ (a : Commands.Args) (p : ProcessObs) (ls : List String),
      (∀ l ∈ ls, rstripL l.data = l.data ∧ '\n' ∉ l.data) →
      p.stdoutChunks = ls.map (fun l => l ++ "\n") →
      p.returncode = 0 →
      (a.return_all = true → Commands.shell_run_command a p = .ok (.list ls)) ∧
      (a.return_all = false →
        Commands.shell_run_command a p = .ok (.str ((ls.getLast?).getD ""))))
    ∧ (∀ (a : Utils.Args) (p : ProcessObs) (ls : List String),
      (∀ l ∈ ls, rstripL l.data = l.data ∧ '\n' ∉ l.data) →
      p.stdoutChunks = ls.map (fun l => l ++ "\n") →
      p.returncode = 0 →
      (a.return_all = true → Utils.shell_run_command a p = .ok (.list ls)) ∧
      (a.return_all = false → ls ≠ [] →
        Utils.shell_run_command a p = .ok (.str ((ls.getLast?).getD ""))) ∧
      (a.return_all = false → ls = [] →
        Utils.shell_run_command a p = .error .indexError)) := by
  constructor
  · intro a p ls hls hchunks hrc
    have hlines : collectLines p.stdoutChunks = ls := by
      rw [hchunks]
      exact collectLines_of_lines ls hls
    constructor
    · intro hra
      unfold Commands.shell_run_command
      rw [hlines, hrc]
      simp [hra]
    · intro hra
      unfold Commands.shell_run_command
      rw [hlines, hrc]
      simp [hra]
  · intro a p ls hls hchunks hrc
    have hlines : collectLines p.stdoutChunks = ls := by
      rw [hchunks]
      exact collectLines_of_lines ls hls
    refine ⟨?_, ?_, ?_⟩
    · intro hra
      unfold Utils.shell_run_command
      rw [hlines, hrc]
      simp [hra]
    · intro hra hne
      unfold Utils.shell_run_command
      rw [hlines, hrc]
      cases hl : ls.getLast? with
      | none => exact absurd (getLast?_eq_none_imp hl) hne
      | some l => simp [hra, hl]
    · intro hra hnil
      unfold Utils.shell_run_command
      rw [hlines, hrc, hnil]
      simp [hra]

/-- Witness for C3 at the concrete scenario of the spec:
`echo work! && echo yes!`. -/
theorem c3_return_shapes_witness :
    ((∀ l ∈ ["work!", "yes!"], rstripL l.data = l.data ∧ '\n' ∉ l.data)
      ∧ (["work!\n", "yes!\n"] : List String)
          = (["work!", "yes!"] : List String).map (fun l => l ++ "\n")
      ∧ (0 : Int) = 0)
    ∧ Commands.shell_run_command { command := "echo work! && echo yes!", return_all := true }
        { stdoutChunks := ["work!\n", "yes!\n"], stderrChunks := [], returncode := 0 }
        = .ok (.list ["work!", "yes!"])
    ∧ Utils.shell_run_command { command := "echo work! && echo yes!" }
        { stdoutChunks := ["work!\n", "yes!\n"], stderrChunks := [], returncode := 0 }
        = .ok (.str "yes!") := by
  refine ⟨⟨by decide, by decide, rfl⟩, ?_, ?_⟩
  · exact (c3_return_shapes.1 { command := "echo work! && echo yes!", return_all := true }
      { stdoutChunks := ["work!\n", "yes!\n"], stderrChunks := [], returncode := 0 }
      ["work!", "yes!"] (by decide) (by decide) rfl).1 rfl
  · exact (c3_return_shapes.2 { command := "echo work! && echo yes!" }
      { stdoutChunks := ["work!\n", "yes!\n"], stderrChunks := [], returncode := 0 }
      ["work!", "yes!"] (by decide) (by decide) rfl).2.1 rfl (by decide)

/-- Claim C4.  Both commands.py paths pass the inherited environment
overlaid with the caller mapping to the subprocess; but utils.py passes
the raw `env` argument (`open_process(shell_command, env=env)`), so the
child of the utils variant sees only the supplied mapping — the
inherited variables are dropped, and the overlay computed into
`current_env` is dead code. -/
theorem c4_env_overlay_divergence :
    (∀ (osEnviron : Env) (env : Option Env) (k v : String),
      envGet k (env.getD []) = some v →
      envGet k (Commands.spawnEnv osEnviron env) = some v)
    ∧ (∀ (osEnviron : Env) (env : Option Env) (k : String),
      envGet k (env.getD []) = none →
      envGet k (Commands.spawnEnv osEnviron env) = envGet k osEnviron)
    ∧ (∀ (osEnviron : Env) (op : ShellOperation) (k v : String),
      envGet k op.env = some v →
      envGet k (ShellOperation.input_env osEnviron op) = some v)
    ∧ (∀ (osEnviron : Env) (op : ShellOperation) (k : String),
      envGet k op.env = none →
      envGet k (ShellOperation.input_env osEnviron op) = envGet k osEnviron)
    ∧ Utils.spawnEnvArg (some [("TEST_VAR", "v")]) = some [("TEST_VAR", "v")]
    ∧ envGet "HOME" (Utils.childEnv [("HOME", "/root")]
        (Utils.spawnEnvArg (some [("TEST_VAR", "v")]))) = none
    ∧ envGet "HOME" (Utils.current_env [("HOME", "/root")] (some [("TEST_VAR", "v")]))
        = some "/root" := by
  refine ⟨?_, ?_, ?_, ?_, rfl, by decide, by decide⟩
  · intro osEnviron env k v h
    unfold Commands.spawnEnv dictUpdate
    rw [envGet_append, h]
  · intro osEnviron env k h
    unfold Commands.spawnEnv dictUpdate
    rw [envGet_append, h]
  · intro osEnviron op k v h
    unfold ShellOperation.input_env dictUpdate
    rw [envGet_append, h]
  · intro osEnviron op k h
    unfold ShellOperation.input_env dictUpdate
    rw [envGet_append, h]

/-- Witness for C4: an overlaid key wins and an inherited key passes
through on the commands.py path. -/
theorem c4_env_overlay_divergence_witness :
    (envGet "TEST_VAR" ((some [("TEST_VAR", "test value")] : Option Env).getD [])
        = some "test value"
      ∧ envGet "HOME" ((some [("TEST_VAR", "test value")] : Option Env).getD []) = none)
    ∧ envGet "TEST_VAR" (Commands.spawnEnv [("HOME", "/root")] (some [("TEST_VAR", "test value")]))
        = some "test value"
    ∧ envGet "HOME" (Commands.spawnEnv [("HOME", "/root")] (some [("TEST_VAR", "test value")]))
        = envGet "HOME" [("HOME", "/root")] := by
  refine ⟨⟨by decide, by decide⟩, ?_, ?_⟩
  · exact c4_env_overlay_divergence.1 [("HOME", "/root")] (some [("TEST_VAR", "test value")])
      "TEST_VAR" "test value" (by decide)
  · exact c4_env_overlay_divergence.2.1 [("HOME", "/root")] (some [("TEST_VAR", "test value")])
      "HOME" (by decide)

/-- Claim C5.  On the task path the script is fully on disk (the file is
closed) before the spawn and ends with the `Exit $LastExitCode` trailer
exactly when the resolved shell is PowerShell; but on the `trigger` path
the flush happens before the trailer is written and no flush follows, so
at spawn time the stored script of a PowerShell run does not end with
the trailer — the trailer sits in the write buffer only. -/
theorem c5_trailer_flush_divergence :
    (∀ (platform : Platform) (a : Commands.Args),
      pyLower (Commands.resolvedShell platform a.shell) = "powershell" →
      EndsWith (Commands.scriptOnDisk platform a) Commands.exitTrailer)
    ∧ (∀ (platform : Platform) (a : Commands.Args),
      pyLower (Commands.resolvedShell platform a.shell) ≠ "powershell" →
      Commands.scriptOnDisk platform a
        = (match a.helper_command with
           | some h => if h = "" then "" else h ++ platform.linesep
           | none => "") ++ a.command)
    ∧ ShellOperation.resolvedShell .win32 { commands := ["Get-ChildItem"] } = "powershell"
    ∧ ShellOperation.flushedAtSpawn .win32 { commands := ["Get-ChildItem"] } = "Get-ChildItem"
    ∧ ¬ EndsWith (ShellOperation.flushedAtSpawn .win32 { commands := ["Get-ChildItem"] })
        Commands.exitTrailer
    ∧ ShellOperation.bufferedScript .win32 { commands := ["Get-ChildItem"] }
        = "Get-ChildItem" ++ Commands.exitTrailer := by
  refine ⟨?_, ?_, by decide, by decide, by decide, by decide⟩
  · intro platform a h
    unfold Commands.scriptOnDisk EndsWith
    rw [if_pos h, strData_append]
    exact List.suffix_append _ _
  · intro platform a h
    unfold Commands.scriptOnDisk
    rw [if_neg h, strAppend_empty]

/-- Witness for C5: the default Windows shell is PowerShell and the task
path's on-disk script ends with the trailer. -/
theorem c5_trailer_flush_divergence_witness :
    (pyLower (Commands.resolvedShell .win32 none) = "powershell"
      ∧ pyLower (Commands.resolvedShell .posix (some "zsh")) ≠ "powershell")
    ∧ EndsWith (Commands.scriptOnDisk .win32 { command := "echo hi" }) Commands.exitTrailer
    ∧ Commands.scriptOnDisk .posix { command := "echo hi", shell := some "zsh" }
        = "echo hi" := by
  refine ⟨⟨by decide, by decide⟩, ?_, ?_⟩
  · exact c5_trailer_flush_divergence.1 .win32 { command := "echo hi" } (by decide)
  · exact c5_trailer_flush_divergence.2.1 .posix { command := "echo hi", shell := some "zsh" }
      (by decide)

/-- Claim C6 counterexample.  In `ShellOperation.trigger` an explicit
shell does not always win: with `shell="bash"` and `extension=".ps1"` on
POSIX, the resolved shell is `"powershell"`, not the explicit
`"bash"`. -/
theorem c6_extension_overrides_explicit_shell :
    ShellOperation.resolvedShell .posix
        { commands := ["echo hi"], shell := some "bash", extension := some ".ps1" }
      = "powershell"
    ∧ ShellOperation.resolvedShell .posix
        { commands := ["echo hi"], shell := some "bash", extension := some ".ps1" }
      ≠ "bash" := by
  constructor <;> decide

/-- Claim C6 (amended).  When the shell is unset, both paths pick the
platform default (PowerShell on Windows, bash elsewhere; in `trigger` a
resolved `.ps1` extension also forces PowerShell).  An explicit shell is
always used by the task `shell_run_command`; in `ShellOperation.trigger`
an explicit shell is used (lowercased) only when the resolved extension
is not `.ps1` — a `.ps1` extension forces PowerShell over it. -/
theorem c6_shell_resolution_rules :
    (∀ (platform : Platform), Commands.resolvedShell platform none
        = (if platform = .win32 then "powershell" else "bash"))
    ∧ (∀ (platform : Platform) (s : String), Commands.resolvedShell platform (some s) = s)
    ∧ (∀ (platform : Platform) (op : ShellOperation), op.shell = none →
        ShellOperation.resolvedShell platform op
          = (if platform = .win32 ∨ ShellOperation.resolvedExtension platform op = ".ps1"
             then "powershell" else "bash"))
    ∧ (∀ (platform : Platform) (op : ShellOperation) (s : String), op.shell = some s →
        ShellOperation.resolvedShell platform op
          = (if ShellOperation.resolvedExtension platform op = ".ps1"
             then "powershell" else pyLower s)) := by
  refine ⟨fun platform => rfl, fun platform s => rfl, ?_, ?_⟩
  · intro platform op h
    unfold ShellOperation.resolvedShell
    by_cases hw : platform = .win32 <;>
      by_cases he : ShellOperation.resolvedExtension platform op = ".ps1" <;>
        simp [h, hw, he]
  · intro platform op s h
    unfold ShellOperation.resolvedShell
    by_cases he : ShellOperation.resolvedExtension platform op = ".ps1" <;>
      simp [h, he]

/-- Witness for C6: an explicit mixed-case shell with a non-`.ps1`
extension resolves to its lowercase form in `trigger`, and an explicit
shell is kept verbatim by the task. -/
theorem c6_shell_resolution_rules_witness :
    (({ commands := ["pwd"], shell := some "ZSH", extension := some ".txt" }
        : ShellOperation).shell = some "ZSH")
    ∧ ShellOperation.resolvedShell .posix
        { commands := ["pwd"], shell := some "ZSH", extension := some ".txt" }
      = (if ShellOperation.resolvedExtension .posix
              { commands := ["pwd"], shell := some "ZSH", extension := some ".txt" } = ".ps1"
         then "powershell" else pyLower "ZSH")
    ∧ Commands.resolvedShell .posix (some "zsh") = "zsh" :=
  ⟨rfl,
    c6_shell_resolution_rules.2.2.2 .posix
      { commands := ["pwd"], shell := some "ZSH", extension := some ".txt" } "ZSH" rfl,
    c6_shell_resolution_rules.2.1 .posix "zsh"⟩

/-- Claim C7 counterexample.  An explicit PowerShell shell on POSIX with
no extension override resolves (in `trigger`) to extension `".sh"`, not
the forced `".ps1"` the claim requires for PowerShell-like shells. -/
theorem c7_powershell_extension_not_forced :
    ShellOperation.resolvedShell .posix { commands := ["Get-Date"], shell := some "powershell" }
      = "powershell"
    ∧ ShellOperation.resolvedExtension .posix
        { commands := ["Get-Date"], shell := some "powershell" }
      = ".sh" := by
  constructor <;> decide

/-- Claim C7 (amended).  In the task path a PowerShell shell does force
`.ps1` and otherwise the caller's extension is used unchanged — with no
platform default (`None` means no suffix, not `.sh`).  In the `trigger`
path the extension is the caller's (non-empty) override or the platform
default (`.ps1` on Windows, `.sh` elsewhere), computed before and
independently of shell resolution, so a PowerShell shell does not force
`.ps1` there. -/
theorem c7_extension_resolution_rules :
    (∀ (s : String) (ext : Option String), pyLower s = "powershell" →
        Commands.resolvedExtension s ext = some ".ps1")
    ∧ (∀ (s : String) (ext : Option String), pyLower s ≠ "powershell" →
        Commands.resolvedExtension s ext = ext)
    ∧ (∀ (platform : Platform) (op : ShellOperation), op.extension = none →
        ShellOperation.resolvedExtension platform op
          = (if platform = .win32 then ".ps1" else ".sh"))
    ∧ (∀ (platform : Platform) (op : ShellOperation) (e : String),
        op.extension = some e → e ≠ "" →
        ShellOperation.resolvedExtension platform op = e) := by
  refine ⟨?_, ?_, ?_, ?_⟩
  · intro s ext h
    unfold Commands.resolvedExtension
    rw [if_pos h]
  · intro s ext h
    unfold Commands.resolvedExtension
    rw [if_neg h]
  · intro platform op h
    unfold ShellOperation.resolvedExtension
    simp only [h]
  · intro platform op e h he
    unfold ShellOperation.resolvedExtension
    simp only [h, if_neg he]

/-- Witness for C7 at the input of
`test_shell_run_command_ensure_suffix_ps1`: a PowerShell run with a
requested `.zzz` extension still gets `.ps1` on the task path. -/
theorem c7_extension_resolution_rules_witness :
    (pyLower "PowerShell" = "powershell"
      ∧ ({ commands := ["pwd"], extension := some ".zzz" } : ShellOperation).extension
          = some ".zzz"
      ∧ ".zzz" ≠ "")
    ∧ Commands.resolvedExtension "PowerShell" (some ".zzz") = some ".ps1"
    ∧ ShellOperation.resolvedExtension .posix { commands := ["pwd"], extension := some ".zzz" }
        = ".zzz" :=
  ⟨⟨by decide, rfl, by decide⟩,
    c7_extension_resolution_rules.1 "PowerShell" (some ".zzz") (by decide),
    c7_extension_resolution_rules.2.2.2 .posix { commands := ["pwd"], extension := some ".zzz" }
      ".zzz" rfl (by decide)⟩

/-- Claim C8 counterexample.  The utils variant raises a `RuntimeError`
whose message carries only the exit code: the captured stderr text
`"boom"` appears nowhere in the message (it is only logged). -/
theorem c8_utils_message_lacks_diagnostic :
    Utils.shell_run_command { command := "ls this/is/invalid" }
      { stdoutChunks := [], stderrChunks := ["boom"], returncode := 1 }
      = .error (.runtimeError "Command failed with exit code 1")
    ∧ ¬ ("boom".data <:+: "Command failed with exit code 1".data) :=
  ⟨rfl, by decide⟩

/-- Claim C8 (amended).  The task `shell_run_command` embeds the
diagnostic in the raised message — the joined stderr text, or the last
stdout line (plus newline) when stderr is empty and stdout produced
lines; the utils variant's message carries only the exit code, with no
diagnostic and no stdout fallback. -/
theorem c8_failure_diagnostic_rules :
    (∀ (stderrChunks lines : List String),
      String.intercalate "\n" stderrChunks ≠ "" →
      Commands.failureDetail stderrChunks lines = String.intercalate "\n" stderrChunks)
    ∧ (∀ (stderrChunks lines : List String) (l : String),
      String.intercalate "\n" stderrChunks = "" → lines.getLast? = some l →
      Commands.failureDetail stderrChunks lines = l ++ "\n")
    ∧ (∀ (a : Commands.Args) (p : ProcessObs), p.returncode ≠ 0 →
      Commands.shell_run_command a p = .error (.runtimeError
        ("Command failed with exit code " ++ toString p.returncode ++ ":\n"
          ++ Commands.failureDetail p.stderrChunks (collectLines p.stdoutChunks))))
    ∧ (∀ (a : Utils.Args) (p : ProcessObs), p.returncode ≠ 0 →
      Utils.shell_run_command a p = .error (.runtimeError
        ("Command failed with exit code " ++ toString p.returncode))) := by
  refine ⟨?_, ?_, ?_, ?_⟩
  · intro stderrChunks lines h
    simp only [Commands.failureDetail]
    rw [if_neg (fun hc => h hc.1)]
  · intro stderrChunks lines l h hl
    have hne : lines ≠ [] := by
      intro hnil
      rw [hnil] at hl
      cases hl
    simp only [Commands.failureDetail]
    rw [if_pos ⟨h, hne⟩, hl]
    rfl
  · intro a p h
    unfold Commands.shell_run_command
    rw [if_pos h]
  · intro a p h
    unfold Utils.shell_run_command
    rw [if_pos h]

/-- Witness for C8 at the scenario of `test_shell_run_command_error`:
stderr text becomes the diagnostic and is embedded in the task's
message; the utils message carries only the code. -/
theorem c8_failure_diagnostic_rules_witness :
    (String.intercalate "\n" ["No such file or directory"] ≠ "" ∧ (2 : Int) ≠ 0)
    ∧ Commands.failureDetail ["No such file or directory"] ["out"]
        = String.intercalate "\n" ["No such file or directory"]
    ∧ Commands.shell_run_command { command := "ls this/is/invalid" }
        { stdoutChunks := [], stderrChunks := ["No such file or directory"], returncode := 2 }
        = .error (.runtimeError ("Command failed with exit code " ++ toString (2 : Int) ++ ":\n"
            ++ Commands.failureDetail ["No such file or directory"] (collectLines [])))
    ∧ Utils.shell_run_command { command := "ls this/is/invalid" }
        { stdoutChunks := [], stderrChunks := ["No such file or directory"], returncode := 2 }
        = .error (.runtimeError ("Command failed with exit code " ++ toString (2 : Int))) :=
  ⟨⟨by decide, by decide⟩,
    c8_failure_diagnostic_rules.1 ["No such file or directory"] ["out"] (by decide),
    c8_failure_diagnostic_rules.2.2.1 { command := "ls this/is/invalid" }
      { stdoutChunks := [], stderrChunks := ["No such file or directory"], returncode := 2 }
      (by decide),
    c8_failure_diagnostic_rules.2.2.2 { command := "ls this/is/invalid" }
      { stdoutChunks := [], stderrChunks := ["No such file or directory"], returncode := 2 }
      (by decide)⟩

/-- Claim C9.  The task's `finally` block removes the script whatever the
run's result (so the name never survives), deleting a missing file is a
guarded no-op rather than an error, and closing an operation removes
every temp file its exit stack registered. -/
theorem c9_script_cleanup :
    (∀ (a : Commands.Args) (p : ProcessObs) (fs : FS) (tmpName : String),
      tmpName ∉ (Commands.runAndCleanup a p fs tmpName).2)
    ∧ (∀ (fs : FS) (name : String), osPathExists fs name = false →
      Commands.cleanupTmp fs name = .ok fs)
    ∧ (∀ (st : ShellOperation.OpState) (name : String), name ∈ st.registered →
      name ∉ (ShellOperation.closeFs st).fs) := by
  refine ⟨?_, ?_, ?_⟩
  · intro a p fs tmpName
    have hex : osPathExists (fs ++ [tmpName]) tmpName = true := by
      simp [osPathExists]
    simp only [Commands.runAndCleanup, Commands.cleanupTmp, osRemove, hex, if_true]
    intro hc
    rw [List.mem_filter] at hc
    exact (of_decide_eq_true hc.2) rfl
  · intro fs name h
    unfold Commands.cleanupTmp
    simp only [h]
    rfl
  · intro st name h
    simp only [ShellOperation.closeFs]
    intro hc
    rw [List.mem_filter] at hc
    exact (of_decide_eq_true hc.2) h

/-- Witness for C9: a deletion attempt on a file system that no longer
holds the script is a no-op success, and closing removes a registered
script. -/
theorem c9_script_cleanup_witness :
    (osPathExists [] "prefect-tmp.sh" = false
      ∧ "prefect-tmp.sh" ∈ ["prefect-tmp.sh"])
    ∧ Commands.cleanupTmp [] "prefect-tmp.sh" = .ok []
    ∧ "prefect-tmp.sh" ∉ (ShellOperation.closeFs
        { fs := ["other.txt", "prefect-tmp.sh"], registered := ["prefect-tmp.sh"] }).fs :=
  ⟨⟨by decide, by decide⟩,
    c9_script_cleanup.2.1 [] "prefect-tmp.sh" (by decide),
    c9_script_cleanup.2.2
      { fs := ["other.txt", "prefect-tmp.sh"], registered := ["prefect-tmp.sh"] }
      "prefect-tmp.sh" (by decide)⟩

/-- Claim C10.  With `stream_output=False` the spawn does discard both
streams (`DEVNULL`) and a bare `fetch_result` after `trigger` returns the
empty list; but `run()` does not return the empty list — iterating
`TextReceiveStream(None)` in `_capture_output` raises an
`AttributeError`, so `run` fails instead. -/
theorem c10_devnull_discard :
    (∀ (op : ShellOperation), op.stream_output = false →
      ShellOperation.stdoutSpec op = .devnull ∧ ShellOperation.stderrSpec op = .devnull)
    ∧ (∀ (op : ShellOperation) (p : ProcessObs), op.stream_output = false →
      (op.trigger p).fetch_result = [])
    ∧ (∀ (platform : Platform) (op : ShellOperation) (p : ProcessObs),
      op.stream_output = false →
      ShellOperation.run platform op p = .error .attributeError) := by
  refine ⟨?_, ?_, ?_⟩
  · intro op h
    constructor <;> simp [ShellOperation.stdoutSpec, ShellOperation.stderrSpec, h]
  · intro op p _h
    rfl
  · intro platform op p h
    have htr : op.trigger p =
        { stdout := none, stderr := none, returncode := p.returncode, output := [] } := by
      simp [ShellOperation.trigger, h]
    unfold ShellOperation.run
    rw [htr]
    rfl

/-- Witness for C10: a silenced `echo hello` run discards the streams,
`fetch_result` alone yields `[]`, and `run` raises instead of returning
`[]`. -/
theorem c10_devnull_discard_witness :
    (({ commands := ["echo hello"], stream_output := false } : ShellOperation).stream_output
        = false)
    ∧ ShellOperation.stdoutSpec { commands := ["echo hello"], stream_output := false } = .devnull
    ∧ (ShellOperation.trigger { commands := ["echo hello"], stream_output := false }
        { stdoutChunks := ["hello\n"], stderrChunks := [], returncode := 0 }).fetch_result = []
    ∧ ShellOperation.run .posix { commands := ["echo hello"], stream_output := false }
        { stdoutChunks := ["hello\n"], stderrChunks := [], returncode := 0 }
        = .error .attributeError :=
  ⟨rfl,
    (c10_devnull_discard.1 { commands := ["echo hello"], stream_output := false } rfl).1,
    c10_devnull_discard.2.1 { commands := ["echo hello"], stream_output := false }
      { stdoutChunks := ["hello\n"], stderrChunks := [], returncode := 0 } rfl,
    c10_devnull_discard.2.2 .posix { commands := ["echo hello"], stream_output := false }
      { stdoutChunks := ["hello\n"], stderrChunks := [], returncode := 0 } rfl⟩

end PrefectShell
